import Mathlib

/-!
# CO2 sensor / monitor simulator (`te/poo/2020`)

A shallow embedding of `simulator.hpp`, `simulator.cpp` and `main.cpp`.

* A C++ `double` is carried as `Double`: the two infinities, NaN, or a finite
  value held exactly as a rational.  The program never does arithmetic on a
  reading; it stores it, hands it back and compares it with `LIMIT`, so only
  the IEEE-754 comparison rules are needed.  (`-0.0` and `0.0`, which every
  comparison treats alike, are both `fin 0`.)
* A C++ `int` identifier is an `Int`; no arithmetic is done on identifiers.
* `std::set<Monitor>` is the list of its elements in iteration order, i.e.
  strictly increasing for `Monitor::operator<=>`.  `setInsert` is
  `std::set::insert`.  The functions accept any list; `StdSet` is the
  well-formedness predicate that every real `std::set` satisfies.
* `std::cout` is the list of lines written; a line written by
  `Monitor::alert` is kept as the three data it prints (`Alert`).
* Member functions that take the sensor by non-const reference are written in
  state-passing style: they return the output written and the sensor after
  the call.
-/

namespace Simulator

/-! ## Values -/

/-- A C++ `double`: NaN, minus infinity, a finite value, or plus infinity. -/
inductive Double where
  | nan
  | negInf
  | fin (q : ℚ)
  | posInf
deriving DecidableEq

/-- Implicit conversion `int -> double` (exact for the constants used here). -/
def Double.ofInt (n : Int) : Double := Double.fin n

/-- The built-in `operator>` on `double`: false as soon as one side is NaN. -/
def Double.gt : Double → Double → Bool
  | .nan, _ => false
  | _, .nan => false
  | .posInf, .posInf => false
  | .posInf, _ => true
  | _, .posInf => false
  | .negInf, _ => false
  | .fin _, .negInf => true
  | .fin a, .fin b => decide (b < a)

/-- The built-in `operator<=` on `double`: false as soon as one side is NaN. -/
def Double.le : Double → Double → Bool
  | .nan, _ => false
  | _, .nan => false
  | .negInf, _ => true
  | _, .posInf => true
  | .posInf, _ => false
  | .fin _, .negInf => false
  | .fin a, .fin b => decide (a ≤ b)

/-- The threshold `#define LIMIT 1500 /* ppm */` (simulator.cpp:8). -/
def LIMIT : Int := 1500

/-! ## Data model -/

/-- The `struct Monitor` (simulator.hpp:6-13): one immutable `int id`. -/
structure Monitor where
  id : Int
deriving DecidableEq

/-- The order `std::set<Monitor>` uses: `Monitor::operator<=>`
(simulator.hpp:10-12) followed by `< 0`. -/
def Monitor.lt (a b : Monitor) : Bool := decide (a.id < b.id)

/-- The `class Sensor` (simulator.hpp:15-27): `value`, `clients`, `id`. -/
structure Sensor where
  value : Double
  clients : List Monitor
  id : Int
deriving DecidableEq

/-- One line written by `Monitor::alert`:
`Monitor <monitor> : Alert from sensor <sensor>, CO2 level <level>`. -/
structure Alert where
  monitor : Int
  sensor : Int
  level : Double
deriving DecidableEq

/-- The invariant of a `std::set<Monitor>`: elements strictly increasing. -/
def StdSet (l : List Monitor) : Prop := l.Pairwise (fun a b => a.id < b.id)

instance (l : List Monitor) : Decidable (StdSet l) := by
  unfold StdSet
  infer_instance

/-- The library call `std::set<Monitor>::insert`: walk past the elements smaller than
`monitor`; put it before the first larger one; leave the set alone when an
equivalent element (neither smaller nor larger) is met. -/
def setInsert (monitor : Monitor) : List Monitor → List Monitor
  | [] => [monitor]
  | c :: cs =>
    if monitor.lt c then monitor :: c :: cs
    else if c.lt monitor then c :: setInsert monitor cs
    else c :: cs

/-! ## Operations -/

/-- Constructor `Sensor(int id) : id{id} {}` (simulator.hpp:21).  `clients` is
default-constructed (empty).  `value` has no initializer: it holds whatever
the storage held, here the argument `indeterminate`. -/
def Sensor.new (id : Int) (indeterminate : Double) : Sensor :=
  { value := indeterminate, clients := [], id := id }

/-- Source: `double Sensor::getValue() { return value; }` (simulator.cpp:30). -/
def Sensor.getValue (s : Sensor) : Double × Sensor := (s.value, s)

/-- Source: `void Monitor::alert(Sensor &sensor) const` (simulator.cpp:10-14):
one line on `std::cout` with the monitor id, `sensor.id` and
`sensor.getValue()`. -/
def Monitor.alert (m : Monitor) (sensor : Sensor) : List Alert × Sensor :=
  let r := sensor.getValue
  ([{ monitor := m.id, sensor := sensor.id, level := r.1 }], r.2)

/-- Source: `void Sensor::connect(Monitor &monitor)` (simulator.cpp:16-18). -/
def Sensor.connect (s : Sensor) (monitor : Monitor) : Sensor :=
  { s with clients := setInsert monitor s.clients }

/-- Source: `void Sensor::notify()` (simulator.cpp:25-28): the range-for over
`clients`, each step appending what `client.alert(*this)` writes. -/
def Sensor.notify (s : Sensor) : List Alert × Sensor :=
  s.clients.foldl
    (fun acc client => let r := client.alert acc.2; (acc.1 ++ r.1, r.2))
    ([], s)

/-- Source: `void Sensor::read(double value)` (simulator.cpp:20-23): store
the reading, then `if (value > LIMIT) notify();`. -/
def Sensor.read (s : Sensor) (value : Double) : List Alert × Sensor :=
  let s1 := { s with value := value }
  if Double.gt value (Double.ofInt LIMIT) then s1.notify else ([], s1)

/-- Source: `int main()` (main.cpp:3-14): what the program writes.  The arguments
are the indeterminate initial `value`s of the two sensors. -/
def main (u1 u2 : Double) : List Alert :=
  let system1 : Monitor := { id := 1 }
  let system2 : Monitor := { id := 2 }
  let sensor1 := Sensor.new 10 u1
  let _sensor2 := Sensor.new 20 u2
  let sensor1 := sensor1.connect system1
  let sensor1 := sensor1.connect system2
  (sensor1.read (Double.fin 1600)).1

/-! ## Call sequences -/

/-- A call of one of the member functions of `Sensor` that `simulator.cpp`
defines. -/
inductive Op where
  | connect (monitor : Monitor)
  | read (value : Double)
  | notify
  | getValue
deriving DecidableEq

/-- Run one call: the lines written and the sensor afterwards (the `double`
returned by `getValue` is dropped by the caller). -/
def Sensor.step (s : Sensor) : Op → List Alert × Sensor
  | .connect monitor => ([], s.connect monitor)
  | .read value => s.read value
  | .notify => s.notify
  | .getValue => ([], s.getValue.2)

/-- Run a sequence of calls on one sensor, first call first. -/
def Sensor.run (s : Sensor) : List Op → List Alert × Sensor
  | [] => ([], s)
  | op :: ops =>
    let r := s.step op
    let r2 := r.2.run ops
    (r.1 ++ r2.1, r2.2)

/-- The two sensor objects of a two-sensor program. -/
inductive Which where
  | A
  | B
deriving DecidableEq

/-- Two separate `Sensor` objects; each owns its `clients` set (the set
stores copies of the monitors). -/
structure System where
  a : Sensor
  b : Sensor

/-- The sensor object a call is made on. -/
def System.get (sys : System) : Which → Sensor
  | .A => sys.a
  | .B => sys.b

/-- One call on one of the two sensors; the other object is not touched. -/
def System.step (sys : System) : Which × Op → List Alert × System
  | (.A, op) => let r := sys.a.step op; (r.1, { sys with a := r.2 })
  | (.B, op) => let r := sys.b.step op; (r.1, { sys with b := r.2 })

/-- Run a sequence of calls on the two sensors, first call first. -/
def System.run (sys : System) : List (Which × Op) → List Alert × System
  | [] => ([], sys)
  | c :: cs =>
    let r := sys.step c
    let r2 := r.2.run cs
    (r.1 ++ r2.1, r2.2)

/-! ## Auxiliary facts -/

theorem foldl_alert (s : Sensor) (l : List Monitor) (out : List Alert) :
    l.foldl (fun acc client => let r := client.alert acc.2; (acc.1 ++ r.1, r.2)) (out, s)
      = (out ++ l.map (fun c => Alert.mk c.id s.id s.value), s) := by
  induction l generalizing out with
  | nil => simp
  | cons c cs ih =>
    simp only [List.foldl_cons, List.map_cons]
    have h : (Monitor.alert c s) = ([Alert.mk c.id s.id s.value], s) := rfl
    rw [h, ih]
    simp

theorem notify_eq (s : Sensor) :
    s.notify = (s.clients.map (fun c => Alert.mk c.id s.id s.value), s) := by
  unfold Sensor.notify
  rw [foldl_alert]
  simp

theorem read_eq_of_gt (s : Sensor) (v : Double)
    (hv : Double.gt v (Double.ofInt LIMIT) = true) :
    s.read v = (s.clients.map (fun c => Alert.mk c.id s.id v), { s with value := v }) := by
  unfold Sensor.read
  simp only [hv, if_true]
  rw [notify_eq]

theorem read_eq_of_not_gt (s : Sensor) (v : Double)
    (hv : Double.gt v (Double.ofInt LIMIT) = false) :
    s.read v = ([], { s with value := v }) := by
  unfold Sensor.read
  simp [hv]

theorem not_gt_of_le (a b : Double) (h : Double.le a b = true) : Double.gt a b = false := by
  cases a <;> cases b <;> simp_all [Double.le, Double.gt]

theorem Monitor.eq_of_id {a b : Monitor} (h : a.id = b.id) : a = b := by
  cases a; cases b; simp_all

theorem StdSet.nodup {l : List Monitor} (h : StdSet l) : l.Nodup := by
  unfold StdSet at h
  exact List.Pairwise.imp (fun hab heq => by simp [heq] at hab) h

theorem countP_alerts (l : List Monitor) (h : StdSet l) (sid : Int) (v : Double) (m : Monitor) :
    List.countP (fun a => decide (a.monitor = m.id)) (l.map (fun c => Alert.mk c.id sid v))
      = if m ∈ l then 1 else 0 := by
  rw [List.countP_map, ← List.count_eq_of_nodup h.nodup]
  unfold List.count
  apply List.countP_congr
  intro c _
  simp only [Function.comp, decide_eq_true_eq, beq_iff_eq]
  constructor
  · intro hc; exact Monitor.eq_of_id hc
  · intro hc; rw [hc]

theorem mem_setInsert (m x : Monitor) (l : List Monitor) :
    x ∈ setInsert m l ↔ x = m ∨ x ∈ l := by
  induction l with
  | nil => simp [setInsert]
  | cons c cs ih =>
    rw [setInsert]
    split_ifs with h1 h2
    · simp
    · simp only [List.mem_cons, ih]
      tauto
    · have hcm : c = m := by
        apply Monitor.eq_of_id
        simp only [Monitor.lt, decide_eq_true_eq] at h1 h2
        omega
      constructor
      · intro h; exact Or.inr h
      · rintro (h | h)
        · exact List.mem_cons.mpr (Or.inl (h.trans hcm.symm))
        · exact h

theorem stdSet_setInsert (m : Monitor) (l : List Monitor) (h : StdSet l) :
    StdSet (setInsert m l) := by
  induction l with
  | nil => simp [setInsert, StdSet]
  | cons c cs ih =>
    unfold StdSet at h ih ⊢
    rw [List.pairwise_cons] at h
    unfold setInsert
    by_cases h1 : m.lt c = true
    · simp only [h1, if_true]
      have h1b : m.id < c.id := by simpa [Monitor.lt] using h1
      refine List.pairwise_cons.mpr ⟨?_, List.pairwise_cons.mpr h⟩
      intro x hx
      rcases List.mem_cons.mp hx with hx | hx
      · rw [hx]; exact h1b
      · exact lt_trans h1b (h.1 x hx)
    · by_cases h2 : c.lt m = true
      · simp only [h1, h2, if_true, if_false]
        have h2b : c.id < m.id := by simpa [Monitor.lt] using h2
        refine List.pairwise_cons.mpr ⟨?_, ih h.2⟩
        intro x hx
        rcases (mem_setInsert m x cs).mp hx with hx | hx
        · rw [hx]; exact h2b
        · exact h.1 x hx
      · simp only [h1, h2, if_false]
        exact List.pairwise_cons.mpr h

theorem setInsert_idem (m : Monitor) (l : List Monitor) :
    setInsert m (setInsert m l) = setInsert m l := by
  induction l with
  | nil => simp [setInsert, Monitor.lt]
  | cons c cs ih =>
    by_cases h1 : m.lt c = true
    · have hmm : m.lt m = false := by simp [Monitor.lt]
      simp [setInsert, h1, hmm]
    · by_cases h2 : c.lt m = true
      · simp [setInsert, h1, h2, ih]
      · simp [setInsert, h1, h2]

theorem read_snd (s : Sensor) (v : Double) : (s.read v).2 = { s with value := v } := by
  cases hv : Double.gt v (Double.ofInt LIMIT)
  · rw [read_eq_of_not_gt s v hv]
  · rw [read_eq_of_gt s v hv]

theorem step_id (s : Sensor) (op : Op) : (s.step op).2.id = s.id := by
  cases op with
  | connect m => rfl
  | read v => simp [Sensor.step, read_snd]
  | notify => simp [Sensor.step, notify_eq]
  | getValue => rfl

theorem step_clients (s : Sensor) (op : Op) :
    (s.step op).2.clients
      = match op with
        | .connect m => setInsert m s.clients
        | _ => s.clients := by
  cases op with
  | connect m => rfl
  | read v => simp [Sensor.step, read_snd]
  | notify => simp [Sensor.step, notify_eq]
  | getValue => rfl

theorem step_stdSet (s : Sensor) (op : Op) (h : StdSet s.clients) :
    StdSet (s.step op).2.clients := by
  rw [step_clients]
  cases op with
  | connect m => exact stdSet_setInsert m s.clients h
  | read v => exact h
  | notify => exact h
  | getValue => exact h

theorem run_stdSet (ops : List Op) (s : Sensor) (h : StdSet s.clients) :
    StdSet (s.run ops).2.clients := by
  induction ops generalizing s with
  | nil => exact h
  | cons op ops ih => exact ih (s.step op).2 (step_stdSet s op h)

theorem step_mem_clients (s : Sensor) (op : Op) (x : Monitor)
    (hx : x ∈ (s.step op).2.clients) : x ∈ s.clients ∨ op = Op.connect x := by
  rw [step_clients] at hx
  cases op with
  | connect m =>
    rcases (mem_setInsert m x s.clients).mp hx with h | h
    · exact Or.inr (by rw [h])
    · exact Or.inl h
  | read v => exact Or.inl hx
  | notify => exact Or.inl hx
  | getValue => exact Or.inl hx

theorem system_run_b (ops : List (Which × Op)) (sys : System) :
    (sys.run ops).2.b.id = sys.b.id
    ∧ ∀ x ∈ (sys.run ops).2.b.clients,
        x ∈ sys.b.clients ∨ (Which.B, Op.connect x) ∈ ops := by
  induction ops generalizing sys with
  | nil => exact ⟨rfl, fun x hx => Or.inl hx⟩
  | cons c cs ih =>
    obtain ⟨w, op⟩ := c
    have hrun : (sys.run ((w, op) :: cs)).2 = ((sys.step (w, op)).2.run cs).2 := rfl
    rw [hrun]
    obtain ⟨hid, hmem⟩ := ih (sys.step (w, op)).2
    cases w with
    | A =>
      have hb : (sys.step (Which.A, op)).2.b = sys.b := rfl
      rw [hb] at hid hmem
      refine ⟨hid, ?_⟩
      intro x hx
      rcases hmem x hx with h | h
      · exact Or.inl h
      · exact Or.inr (List.mem_cons_of_mem _ h)
    | B =>
      have hb : (sys.step (Which.B, op)).2.b = (sys.b.step op).2 := rfl
      rw [hb] at hid hmem
      refine ⟨hid.trans (step_id sys.b op), ?_⟩
      intro x hx
      rcases hmem x hx with h | h
      · rcases step_mem_clients sys.b op x h with h2 | h2
        · exact Or.inl h2
        · exact Or.inr (by rw [h2]; exact List.mem_cons_self _ _)
      · exact Or.inr (List.mem_cons_of_mem _ h)

theorem mem_read_out (s : Sensor) (v : Double) (a : Alert) (ha : a ∈ (s.read v).1) :
    a.sensor = s.id ∧ a.level = v ∧ ∃ c ∈ s.clients, c.id = a.monitor := by
  cases hv : Double.gt v (Double.ofInt LIMIT)
  · rw [read_eq_of_not_gt s v hv] at ha
    simp at ha
  · rw [read_eq_of_gt s v hv] at ha
    simp only [List.mem_map] at ha
    obtain ⟨c, hc, rfl⟩ := ha
    exact ⟨rfl, rfl, c, hc, rfl⟩

/-! ## Reading above and below the limit -/

/-- C1: for every sensor state and every reading `v > 1500`, `read v` writes
exactly the alerts of the registered monitors, in set order: every monitor
is named by one alert if it is registered and by none otherwise, and every
alert carries this sensor's id and the new reading `v`, whatever value the
sensor held before. -/
theorem read_above_limit_alerts (s : Sensor) (v : Double)
    (hs : StdSet s.clients) (hv : Double.gt v (Double.ofInt LIMIT) = true) :
    (s.read v).1 = s.clients.map (fun c => Alert.mk c.id s.id v)
    ∧ (∀ m : Monitor, List.countP (fun a => decide (a.monitor = m.id)) (s.read v).1
        = if m ∈ s.clients then 1 else 0)
    ∧ (∀ a ∈ (s.read v).1, a.sensor = s.id ∧ a.level = v)
    ∧ (s.read v).1.length = s.clients.length := by
  rw [read_eq_of_gt s v hv]
  refine ⟨rfl, ?_, ?_, ?_⟩
  · intro m
    exact countP_alerts s.clients hs s.id v m
  · intro a ha
    simp only [List.mem_map] at ha
    obtain ⟨c, _, rfl⟩ := ha
    exact ⟨rfl, rfl⟩
  · simp

/-- C1 on the program of `main.cpp` (monitors 1 and 2 on sensor 10, reading
1600) and on sensor 20 with no monitor (reading 2000). -/
theorem read_above_limit_alerts_witness :
    StdSet (((Sensor.new 10 (Double.fin 400)).connect ⟨1⟩).connect ⟨2⟩).clients
    ∧ Double.gt (Double.fin 1600) (Double.ofInt LIMIT) = true
    ∧ ((((Sensor.new 10 (Double.fin 400)).connect ⟨1⟩).connect ⟨2⟩).read (Double.fin 1600)).1
        = [⟨1, 10, Double.fin 1600⟩, ⟨2, 10, Double.fin 1600⟩]
    ∧ main (Double.fin 400) Double.nan
        = [⟨1, 10, Double.fin 1600⟩, ⟨2, 10, Double.fin 1600⟩]
    ∧ ((Sensor.new 20 Double.nan).read (Double.fin 2000)).1 = [] :=
  ⟨by decide, by decide,
   (read_above_limit_alerts (((Sensor.new 10 (Double.fin 400)).connect ⟨1⟩).connect ⟨2⟩)
      (Double.fin 1600) (by decide) (by decide)).1.trans (by decide),
   by decide,
   (read_above_limit_alerts (Sensor.new 20 Double.nan) (Double.fin 2000)
      (by decide) (by decide)).1.trans (by decide)⟩

/-- C2: for every sensor state, whatever monitors are registered, and every
reading `v <= 1500`, `read v` writes no alert. -/
theorem read_at_or_below_limit_silent (s : Sensor) (v : Double)
    (hv : Double.le v (Double.ofInt LIMIT) = true) :
    (s.read v).1 = [] := by
  rw [read_eq_of_not_gt s v (not_gt_of_le _ _ hv)]

/-- C2 at exactly 1500, at 1000, at a negative reading and at minus
infinity, on the sensor of `main.cpp` with both monitors connected. -/
theorem read_at_or_below_limit_silent_witness :
    Double.le (Double.fin 1500) (Double.ofInt LIMIT) = true
    ∧ ((((Sensor.new 10 (Double.fin 1600)).connect ⟨1⟩).connect ⟨2⟩).read (Double.fin 1500)).1 = []
    ∧ ((((Sensor.new 10 (Double.fin 1600)).connect ⟨1⟩).connect ⟨2⟩).read (Double.fin 1000)).1 = []
    ∧ ((((Sensor.new 10 (Double.fin 1600)).connect ⟨1⟩).connect ⟨2⟩).read (Double.fin (-5))).1 = []
    ∧ ((((Sensor.new 10 (Double.fin 1600)).connect ⟨1⟩).connect ⟨2⟩).read Double.negInf).1 = [] :=
  ⟨by decide,
   read_at_or_below_limit_silent _ (Double.fin 1500) (by decide),
   read_at_or_below_limit_silent _ (Double.fin 1000) (by decide),
   read_at_or_below_limit_silent _ (Double.fin (-5)) (by decide),
   read_at_or_below_limit_silent _ Double.negInf (by decide)⟩

/-! ## Registration -/

/-- C3: `connect` is idempotent: connecting `m` a second time leaves the
sensor as the first connection left it, and on a well-formed set a following
reading above the limit alerts `m` exactly once. -/
theorem connect_idempotent (s : Sensor) (m : Monitor) :
    (s.connect m).connect m = s.connect m
    ∧ (StdSet s.clients → ∀ v : Double, Double.gt v (Double.ofInt LIMIT) = true →
        List.countP (fun a => decide (a.monitor = m.id))
          (((s.connect m).connect m).read v).1 = 1) := by
  have hidem : (s.connect m).connect m = s.connect m := by
    simp [Sensor.connect, setInsert_idem]
  refine ⟨hidem, ?_⟩
  intro hs v hv
  rw [hidem, read_eq_of_gt _ v hv]
  have hwf : StdSet (s.connect m).clients := stdSet_setInsert m s.clients hs
  have hmem : m ∈ (s.connect m).clients := (mem_setInsert m m s.clients).mpr (Or.inl rfl)
  rw [countP_alerts _ hwf]
  simp [hmem]

/-- C3 on sensor 10: monitor 1 connected twice, then reading 1600, gives the
single alert of monitor 1. -/
theorem connect_idempotent_witness :
    StdSet (Sensor.new 10 Double.nan).clients
    ∧ Double.gt (Double.fin 1600) (Double.ofInt LIMIT) = true
    ∧ ((Sensor.new 10 Double.nan).connect ⟨1⟩).connect ⟨1⟩
        = (Sensor.new 10 Double.nan).connect ⟨1⟩
    ∧ List.countP (fun a => decide (a.monitor = (1 : Int)))
        ((((Sensor.new 10 Double.nan).connect ⟨1⟩).connect ⟨1⟩).read (Double.fin 1600)).1 = 1
    ∧ ((((Sensor.new 10 Double.nan).connect ⟨1⟩).connect ⟨1⟩).read (Double.fin 1600)).1
        = [⟨1, 10, Double.fin 1600⟩] :=
  ⟨by decide, by decide,
   (connect_idempotent (Sensor.new 10 Double.nan) ⟨1⟩).1,
   (connect_idempotent (Sensor.new 10 Double.nan) ⟨1⟩).2 (by decide) (Double.fin 1600) (by decide),
   by decide⟩

/-- C4: in a program with two sensors A and B, after any sequence of calls
on the two, every alert written by `B.read v` carries B's id and names a
monitor that some earlier call connected to B; so a monitor connected only
to A is not alerted by a reading on B. -/
theorem read_alerts_only_own_clients (idA idB : Int) (uA uB : Double)
    (ops : List (Which × Op)) (v : Double) :
    (∀ a ∈ (((System.mk (Sensor.new idA uA) (Sensor.new idB uB)).run ops).2.b.read v).1,
        a.sensor = idB ∧ ∃ m : Monitor, (Which.B, Op.connect m) ∈ ops ∧ m.id = a.monitor)
    ∧ (∀ m : Monitor, (Which.B, Op.connect m) ∉ ops →
        ∀ a ∈ (((System.mk (Sensor.new idA uA) (Sensor.new idB uB)).run ops).2.b.read v).1,
          a.monitor ≠ m.id) := by
  obtain ⟨hid, hmem⟩ := system_run_b ops (System.mk (Sensor.new idA uA) (Sensor.new idB uB))
  have key : ∀ a ∈ (((System.mk (Sensor.new idA uA) (Sensor.new idB uB)).run ops).2.b.read v).1,
      a.sensor = idB ∧ ∃ m : Monitor, (Which.B, Op.connect m) ∈ ops ∧ m.id = a.monitor := by
    intro a ha
    obtain ⟨h1, _, c, hc, hcid⟩ := mem_read_out _ v a ha
    refine ⟨h1.trans hid, c, ?_, hcid⟩
    rcases hmem c hc with h | h
    · simp [Sensor.new] at h
    · exact h
  refine ⟨key, ?_⟩
  intro m hm a ha hne
  obtain ⟨_, c, hc, hcid⟩ := key a ha
  have : c = m := Monitor.eq_of_id (hcid.trans hne)
  exact hm (this ▸ hc)

/-- C4 with monitor 1 connected to A (id 10), monitor 2 connected to B
(id 20), a reading on A, then a reading of 1700 on B: B writes the alert of
monitor 2 alone. -/
theorem read_alerts_only_own_clients_witness :
    (⟨2, 20, Double.fin 1700⟩ : Alert) ∈
      (((System.mk (Sensor.new 10 Double.nan) (Sensor.new 20 Double.nan)).run
        [(Which.A, Op.connect ⟨1⟩), (Which.B, Op.connect ⟨2⟩),
         (Which.A, Op.read (Double.fin 1600))]).2.b.read (Double.fin 1700)).1
    ∧ (Which.B, Op.connect ⟨1⟩) ∉
        [(Which.A, Op.connect ⟨1⟩), (Which.B, Op.connect ⟨2⟩),
         (Which.A, Op.read (Double.fin 1600))]
    ∧ ((20 : Int) = 20 ∧ ∃ m : Monitor,
        (Which.B, Op.connect m) ∈
          [(Which.A, Op.connect ⟨1⟩), (Which.B, Op.connect ⟨2⟩),
           (Which.A, Op.read (Double.fin 1600))] ∧ m.id = 2)
    ∧ (2 : Int) ≠ 1 :=
  ⟨by decide, by decide,
   (read_alerts_only_own_clients 10 20 Double.nan Double.nan
      [(Which.A, Op.connect ⟨1⟩), (Which.B, Op.connect ⟨2⟩),
       (Which.A, Op.read (Double.fin 1600))] (Double.fin 1700)).1
      ⟨2, 20, Double.fin 1700⟩ (by decide),
   (read_alerts_only_own_clients 10 20 Double.nan Double.nan
      [(Which.A, Op.connect ⟨1⟩), (Which.B, Op.connect ⟨2⟩),
       (Which.A, Op.read (Double.fin 1600))] (Double.fin 1700)).2
      ⟨1⟩ (by decide) ⟨2, 20, Double.fin 1700⟩ (by decide)⟩

/-! ## The stored value -/

/-- C5: `getValue` after `read v` returns `v`, above or below the limit;
`getValue` returns the stored value and leaves the sensor (value, registered
set, id) as it was. -/
theorem getValue_returns_last_reading (s : Sensor) (v : Double) :
    ((s.read v).2.getValue).1 = v
    ∧ s.getValue.1 = s.value
    ∧ s.getValue.2 = s
    ∧ ((s.read v).2.getValue).2 = (s.read v).2 := by
  rw [read_snd]
  exact ⟨rfl, rfl, rfl, rfl⟩

/-- C6: no hysteresis.  Two sensors with the same id and the same registered
set, whatever their stored values, write the same alerts on `read v` and end
in the same state; and two consecutive readings above the limit each write
the alerts of all registered monitors. -/
theorem read_no_hysteresis (s1 s2 : Sensor) (v : Double)
    (hid : s1.id = s2.id) (hc : s1.clients = s2.clients) :
    s1.read v = s2.read v
    ∧ (∀ w : Double, Double.gt w (Double.ofInt LIMIT) = true →
        Double.gt v (Double.ofInt LIMIT) = true →
        (s1.read w).1 = s1.clients.map (fun c => Alert.mk c.id s1.id w)
        ∧ ((s1.read w).2.read v).1 = s1.clients.map (fun c => Alert.mk c.id s1.id v)) := by
  constructor
  · cases hv : Double.gt v (Double.ofInt LIMIT)
    · rw [read_eq_of_not_gt s1 v hv, read_eq_of_not_gt s2 v hv, hid, hc]
    · rw [read_eq_of_gt s1 v hv, read_eq_of_gt s2 v hv, hid, hc]
  · intro w hw hv
    rw [read_eq_of_gt s1 w hw, read_eq_of_gt _ v hv]
    exact ⟨rfl, rfl⟩

/-- C6 on sensor 10 with monitors 1 and 2: the same reading 1600 on a sensor
holding 400 and on one holding 1700, and the readings 1700 then 1600. -/
theorem read_no_hysteresis_witness :
    (Sensor.mk (Double.fin 400) [⟨1⟩, ⟨2⟩] 10).read (Double.fin 1600)
      = (Sensor.mk (Double.fin 1700) [⟨1⟩, ⟨2⟩] 10).read (Double.fin 1600)
    ∧ Double.gt (Double.fin 1700) (Double.ofInt LIMIT) = true
    ∧ Double.gt (Double.fin 1600) (Double.ofInt LIMIT) = true
    ∧ ((Sensor.mk (Double.fin 400) [⟨1⟩, ⟨2⟩] 10).read (Double.fin 1700)).1
        = [⟨1, 10, Double.fin 1700⟩, ⟨2, 10, Double.fin 1700⟩]
    ∧ (((Sensor.mk (Double.fin 400) [⟨1⟩, ⟨2⟩] 10).read (Double.fin 1700)).2.read
          (Double.fin 1600)).1
        = [⟨1, 10, Double.fin 1600⟩, ⟨2, 10, Double.fin 1600⟩] :=
  ⟨(read_no_hysteresis (Sensor.mk (Double.fin 400) [⟨1⟩, ⟨2⟩] 10)
      (Sensor.mk (Double.fin 1700) [⟨1⟩, ⟨2⟩] 10) (Double.fin 1600) rfl rfl).1,
   by decide, by decide,
   ((read_no_hysteresis (Sensor.mk (Double.fin 400) [⟨1⟩, ⟨2⟩] 10)
      (Sensor.mk (Double.fin 1700) [⟨1⟩, ⟨2⟩] 10) (Double.fin 1600) rfl rfl).2
      (Double.fin 1700) (by decide) (by decide)).1,
   ((read_no_hysteresis (Sensor.mk (Double.fin 400) [⟨1⟩, ⟨2⟩] 10)
      (Sensor.mk (Double.fin 1700) [⟨1⟩, ⟨2⟩] 10) (Double.fin 1600) rfl rfl).2
      (Double.fin 1700) (by decide) (by decide)).2⟩

/-! ## Broadcast -/

/-- C7: `notify` does no filtering: for every sensor state, whatever the
stored value, it writes the alerts of the registered monitors in set order,
each with this sensor's id and the stored value, and leaves the sensor as it
was; on a well-formed set every monitor is named by one alert if registered
and by none otherwise. -/
theorem notify_unfiltered (s : Sensor) :
    s.notify.1 = s.clients.map (fun c => Alert.mk c.id s.id s.value)
    ∧ s.notify.2 = s
    ∧ (StdSet s.clients → ∀ m : Monitor,
        List.countP (fun a => decide (a.monitor = m.id)) s.notify.1
          = if m ∈ s.clients then 1 else 0) := by
  rw [notify_eq]
  refine ⟨rfl, rfl, ?_⟩
  intro hs m
  exact countP_alerts s.clients hs s.id s.value m

/-- C7 on sensor 10 holding 1000 (below the limit) with monitors 1 and 2. -/
theorem notify_unfiltered_witness :
    StdSet (Sensor.mk (Double.fin 1000) [⟨1⟩, ⟨2⟩] 10).clients
    ∧ Double.le (Double.fin 1000) (Double.ofInt LIMIT) = true
    ∧ (Sensor.mk (Double.fin 1000) [⟨1⟩, ⟨2⟩] 10).notify.1
        = [⟨1, 10, Double.fin 1000⟩, ⟨2, 10, Double.fin 1000⟩]
    ∧ List.countP (fun a => decide (a.monitor = (2 : Int)))
        (Sensor.mk (Double.fin 1000) [⟨1⟩, ⟨2⟩] 10).notify.1 = 1
    ∧ List.countP (fun a => decide (a.monitor = (3 : Int)))
        (Sensor.mk (Double.fin 1000) [⟨1⟩, ⟨2⟩] 10).notify.1 = 0 :=
  ⟨by decide, by decide,
   (notify_unfiltered (Sensor.mk (Double.fin 1000) [⟨1⟩, ⟨2⟩] 10)).1,
   (notify_unfiltered (Sensor.mk (Double.fin 1000) [⟨1⟩, ⟨2⟩] 10)).2.2 (by decide) ⟨2⟩,
   (notify_unfiltered (Sensor.mk (Double.fin 1000) [⟨1⟩, ⟨2⟩] 10)).2.2 (by decide) ⟨3⟩⟩

/-! ## Reachable states -/

/-- C8: every state reached from a newly constructed sensor by any sequence
of `connect`, `read`, `notify` and `getValue` calls holds a strictly
increasing registered set, so each monitor id occurs in it at most once. -/
theorem reachable_clients_unique (id : Int) (u : Double) (ops : List Op) :
    StdSet ((Sensor.new id u).run ops).2.clients
    ∧ (((Sensor.new id u).run ops).2.clients.map (fun c => c.id)).Nodup
    ∧ ∀ i : Int, List.count i (((Sensor.new id u).run ops).2.clients.map (fun c => c.id)) ≤ 1 := by
  have hwf : StdSet ((Sensor.new id u).run ops).2.clients :=
    run_stdSet ops (Sensor.new id u) (by simp [Sensor.new, StdSet])
  have hnd : (((Sensor.new id u).run ops).2.clients.map (fun c => c.id)).Nodup := by
    unfold StdSet at hwf
    unfold List.Nodup
    rw [List.pairwise_map]
    exact List.Pairwise.imp (fun h => ne_of_lt h) hwf
  exact ⟨hwf, hnd, fun i => List.nodup_iff_count_le_one.mp hnd i⟩

/-! ## Construction -/

/-- C9 (as stated) fails: a sensor constructed as `Sensor{10}` over storage
that held 400 returns 400 from `getValue` before any reading, not 0: the
constructor initialises `id` alone. -/
theorem new_sensor_value_counterexample :
    ((Sensor.new 10 (Double.fin 400)).getValue).1 = Double.fin 400
    ∧ ((Sensor.new 10 (Double.fin 400)).getValue).1 ≠ Double.ofInt 0 := by
  decide

/-- C9 (amended): a newly constructed sensor has an empty registered set and
the id it was given; its value is unset, so `getValue` before any reading
returns whatever the storage held; a `notify` on it writes nothing, and
after a first `read v` `getValue` returns `v`. -/
theorem new_sensor_state (id : Int) (u : Double) :
    (Sensor.new id u).clients = []
    ∧ (Sensor.new id u).id = id
    ∧ ((Sensor.new id u).getValue).1 = u
    ∧ ((Sensor.new id u).notify).1 = []
    ∧ ∀ v : Double, (((Sensor.new id u).read v).2.getValue).1 = v := by
  refine ⟨rfl, rfl, rfl, rfl, ?_⟩
  intro v
  rw [read_snd]
  rfl

/-! ## Order of the alerts -/

theorem Monitor.lt_cases (x y : Monitor) :
    (x.lt y = true ∧ y.lt x = false ∧ x.id < y.id)
    ∨ (x.lt y = false ∧ y.lt x = true ∧ y.id < x.id)
    ∨ (x.lt y = false ∧ y.lt x = false ∧ x.id = y.id) := by
  unfold Monitor.lt
  rcases lt_trichotomy x.id y.id with h | h | h
  · exact Or.inl ⟨by simpa using h, by simpa using le_of_lt h, h⟩
  · exact Or.inr (Or.inr ⟨by simp [h], by simp [h], h⟩)
  · exact Or.inr (Or.inl ⟨by simpa using le_of_lt h, by simpa using h, h⟩)

theorem setInsert_comm (a b : Monitor) (l : List Monitor) :
    setInsert a (setInsert b l) = setInsert b (setInsert a l) := by
  by_cases hab : a = b
  · rw [hab]
  · have hne : a.id ≠ b.id := fun h => hab (Monitor.eq_of_id h)
    induction l with
    | nil =>
      rcases Monitor.lt_cases a b with ⟨h1, h2, h3⟩ | ⟨h1, h2, h3⟩ | ⟨h1, h2, h3⟩
      · simp [setInsert, h1, h2]
      · simp [setInsert, h1, h2]
      · exact absurd h3 hne
    | cons c cs ih =>
      rcases Monitor.lt_cases a b with ⟨h1, h2, h3⟩ | ⟨h1, h2, h3⟩ | ⟨h1, h2, h3⟩ <;>
      rcases Monitor.lt_cases a c with ⟨h4, h5, h6⟩ | ⟨h4, h5, h6⟩ | ⟨h4, h5, h6⟩ <;>
      rcases Monitor.lt_cases b c with ⟨h7, h8, h9⟩ | ⟨h7, h8, h9⟩ | ⟨h7, h8, h9⟩ <;>
      first
      | omega
      | simp [setInsert, h1, h2, h4, h5, h7, h8, ih]

theorem run_id (ops : List Op) (s : Sensor) : (s.run ops).2.id = s.id := by
  induction ops generalizing s with
  | nil => rfl
  | cons op ops ih => exact (ih (s.step op).2).trans (step_id s op)

theorem step_mem_mono (s : Sensor) (op : Op) (x : Monitor) (hx : x ∈ s.clients) :
    x ∈ (s.step op).2.clients := by
  rw [step_clients]
  cases op with
  | connect m => exact (mem_setInsert m x s.clients).mpr (Or.inr hx)
  | read v => exact hx
  | notify => exact hx
  | getValue => exact hx

theorem run_mem_mono (ops : List Op) (s : Sensor) (x : Monitor) (hx : x ∈ s.clients) :
    x ∈ (s.run ops).2.clients := by
  induction ops generalizing s with
  | nil => exact hx
  | cons op ops ih => exact ih (s.step op).2 (step_mem_mono s op x hx)

theorem monitors_increasing (l : List Monitor) (h : StdSet l) (sid : Int) (v : Double) :
    ((l.map (fun c => Alert.mk c.id sid v)).map (fun a => a.monitor)).Pairwise
      (fun i j => i < j) := by
  rw [List.map_map, List.pairwise_map]
  exact h

/-- C11: the alerts written by `notify`, and so by `read v`, on any state
reached from a well-formed one (a new sensor in particular) by any sequence
of calls come in strictly increasing order of monitor id; above the limit
the monitors named are the registered ids in set order, whatever the order
of the `connect` calls. -/
theorem alerts_in_increasing_id_order (s : Sensor) (hs : StdSet s.clients)
    (ops : List Op) (v : Double) :
    ((s.run ops).2.notify.1.map (fun a => a.monitor)).Pairwise (fun i j => i < j)
    ∧ (((s.run ops).2.read v).1.map (fun a => a.monitor)).Pairwise (fun i j => i < j)
    ∧ (Double.gt v (Double.ofInt LIMIT) = true →
        ((s.run ops).2.read v).1.map (fun a => a.monitor)
          = (s.run ops).2.clients.map (fun c => c.id)) := by
  have hwf : StdSet (s.run ops).2.clients := run_stdSet ops s hs
  refine ⟨?_, ?_, ?_⟩
  · rw [notify_eq]
    exact monitors_increasing _ hwf _ _
  · cases hv : Double.gt v (Double.ofInt LIMIT)
    · rw [read_eq_of_not_gt _ v hv]
      exact List.Pairwise.nil
    · rw [read_eq_of_gt _ v hv]
      exact monitors_increasing _ hwf _ _
  · intro hv
    rw [read_eq_of_gt _ v hv, List.map_map]
    rfl

/-- C11 on sensor 10 with monitors connected in the order 3, 1, 2 and a
reading of 1600: the alerts name 1, 2, 3 in that order. -/
theorem alerts_in_increasing_id_order_witness :
    StdSet (Sensor.new 10 Double.nan).clients
    ∧ Double.gt (Double.fin 1600) (Double.ofInt LIMIT) = true
    ∧ ((((Sensor.new 10 Double.nan).run
          [Op.connect ⟨3⟩, Op.connect ⟨1⟩, Op.connect ⟨2⟩]).2.read (Double.fin 1600)).1.map
          (fun a => a.monitor)).Pairwise (fun i j => i < j)
    ∧ (((Sensor.new 10 Double.nan).run
          [Op.connect ⟨3⟩, Op.connect ⟨1⟩, Op.connect ⟨2⟩]).2.read (Double.fin 1600)).1
        = [⟨1, 10, Double.fin 1600⟩, ⟨2, 10, Double.fin 1600⟩, ⟨3, 10, Double.fin 1600⟩] :=
  ⟨by decide, by decide,
   (alerts_in_increasing_id_order (Sensor.new 10 Double.nan) (by decide)
      [Op.connect ⟨3⟩, Op.connect ⟨1⟩, Op.connect ⟨2⟩] (Double.fin 1600)).2.1,
   by decide⟩

/-! ## Algebra of `connect` -/

/-- C12: `connect` commutes: for every sensor state and monitors `m1`, `m2`,
connecting `m1` then `m2` gives the same sensor (registered set, value, id)
as connecting `m2` then `m1`, hence the same output and final state on every
later `read`, `notify` or sequence of calls. -/
theorem connect_commutes (s : Sensor) (m1 m2 : Monitor) :
    (s.connect m1).connect m2 = (s.connect m2).connect m1
    ∧ ((s.connect m1).connect m2).clients = ((s.connect m2).connect m1).clients
    ∧ ((s.connect m1).connect m2).value = ((s.connect m2).connect m1).value
    ∧ (∀ v : Double,
        ((s.connect m1).connect m2).read v = ((s.connect m2).connect m1).read v)
    ∧ ((s.connect m1).connect m2).notify = ((s.connect m2).connect m1).notify
    ∧ (∀ ops : List Op,
        ((s.connect m1).connect m2).run ops = ((s.connect m2).connect m1).run ops) := by
  have h : (s.connect m1).connect m2 = (s.connect m2).connect m1 := by
    simp only [Sensor.connect]
    rw [setInsert_comm]
  refine ⟨h, ?_, ?_, ?_, ?_, ?_⟩
  · rw [h]
  · rw [h]
  · intro v; rw [h]
  · rw [h]
  · intro ops; rw [h]

/-! ## Frame conditions -/

/-- C13: `read v` leaves the registered set and the sensor id unchanged for
every `v`; `connect m` leaves the stored value and the sensor id unchanged
and writes no alert. -/
theorem read_connect_frame (s : Sensor) (v : Double) (m : Monitor) :
    (s.read v).2.clients = s.clients
    ∧ (s.read v).2.id = s.id
    ∧ (s.connect m).value = s.value
    ∧ (s.connect m).id = s.id
    ∧ (s.step (Op.connect m)).1 = []
    ∧ (s.step (Op.connect m)).2 = s.connect m := by
  rw [read_snd]
  exact ⟨rfl, rfl, rfl, rfl, rfl, rfl⟩

/-! ## Permanence of registration -/

/-- C14: once `connect m` has been called, `m` stays in the registered set
through every later sequence of `connect`, `read`, `notify` and `getValue`
calls, so every later reading above the limit writes the alert of `m`; and
`connect` keeps every monitor that was registered before it. -/
theorem registration_permanent (s : Sensor) (m : Monitor) (ops : List Op) :
    m ∈ ((s.connect m).run ops).2.clients
    ∧ (∀ v : Double, Double.gt v (Double.ofInt LIMIT) = true →
        Alert.mk m.id s.id v ∈ (((s.connect m).run ops).2.read v).1)
    ∧ (∀ x m2 : Monitor, x ∈ s.clients → x ∈ (s.connect m2).clients) := by
  have hm : m ∈ ((s.connect m).run ops).2.clients :=
    run_mem_mono ops (s.connect m) m ((mem_setInsert m m s.clients).mpr (Or.inl rfl))
  refine ⟨hm, ?_, ?_⟩
  · intro v hv
    rw [read_eq_of_gt _ v hv, run_id]
    exact List.mem_map.mpr ⟨m, hm, rfl⟩
  · intro x m2 hx
    exact (mem_setInsert m2 x s.clients).mpr (Or.inr hx)

/-- C14 on sensor 10: monitor 1 connected, then monitor 2 connected, a
reading of 1000, a `notify`, a `getValue` and monitor 1 connected again; a
reading of 1600 still writes the alert of monitor 1. -/
theorem registration_permanent_witness :
    Double.gt (Double.fin 1600) (Double.ofInt LIMIT) = true
    ∧ (⟨1⟩ : Monitor) ∈ (((Sensor.new 10 Double.nan).connect ⟨1⟩).run
        [Op.connect ⟨2⟩, Op.read (Double.fin 1000), Op.notify, Op.getValue,
         Op.connect ⟨1⟩]).2.clients
    ∧ (⟨1, 10, Double.fin 1600⟩ : Alert) ∈ ((((Sensor.new 10 Double.nan).connect ⟨1⟩).run
        [Op.connect ⟨2⟩, Op.read (Double.fin 1000), Op.notify, Op.getValue,
         Op.connect ⟨1⟩]).2.read (Double.fin 1600)).1
    ∧ (⟨1⟩ : Monitor) ∈ ((Sensor.mk (Double.fin 400) [⟨1⟩, ⟨3⟩] 10).connect ⟨2⟩).clients :=
  ⟨by decide,
   (registration_permanent (Sensor.new 10 Double.nan) ⟨1⟩
      [Op.connect ⟨2⟩, Op.read (Double.fin 1000), Op.notify, Op.getValue,
       Op.connect ⟨1⟩]).1,
   (registration_permanent (Sensor.new 10 Double.nan) ⟨1⟩
      [Op.connect ⟨2⟩, Op.read (Double.fin 1000), Op.notify, Op.getValue,
       Op.connect ⟨1⟩]).2.1 (Double.fin 1600) (by decide),
   (registration_permanent (Sensor.mk (Double.fin 400) [⟨1⟩, ⟨3⟩] 10) ⟨2⟩ []).2.2
      ⟨1⟩ ⟨2⟩ (by decide)⟩

end Simulator
